import Mathlib

/-
Shallow embedding of `src/venvbs.py`, a single-file bootstrap script that
resolves the virtualenv sdist URL from the package index, downloads and
extracts it into a scratch directory, locates `virtualenv.py`, and invokes
the interpreter on it.  External effects (network, filesystem, subprocess)
are modelled as oracle parameters; Python exceptions are modelled by an
explicit outcome type.
-/

namespace Venvbs

/-- Outcome of a Python call: normal return, a raised `BootstrapError`
(carrying the message template `msg` and the positional `args`, rendered
lazily as `msg % args`), or any other raised exception (identified by its
class name), which `main`'s handler does not catch. -/
inductive PyResult (α : Type) where
  | ok : α → PyResult α
  | bootstrapError : String → List String → PyResult α
  | pyError : String → PyResult α
  deriving DecidableEq, Repr

/-- Rendering of `msg % args`: each `%s` in the template consumes the next
positional argument (this is `BootstrapError.__str__`). -/
def renderAux : List Char → List String → List Char
  | [], _ => []
  | '%' :: 's' :: rest, a :: as => a.data ++ renderAux rest as
  | c :: rest, as => c :: renderAux rest as

def render (msg : String) (args : List String) : String :=
  ⟨renderAux msg.data args⟩

/-- Minimal JSON value model for the decoded index response body.
`jOther` stands for numbers, booleans and null, which the script never
inspects beyond equality with the string "sdist". -/
inductive JValue where
  | jStr : String → JValue
  | jArr : List JValue → JValue
  | jObj : List (String × JValue) → JValue
  | jOther : JValue

/-- First-match lookup in a JSON object's field list (Python `dict`
subscripting never sees duplicate keys). -/
def lookupField : List (String × JValue) → String → Option JValue
  | [], _ => none
  | (k, v) :: rest, key => if k = key then some v else lookupField rest key

/-- Python subscripting `data[key]`: `KeyError` on a missing key,
`TypeError` when `data` is not a dict. -/
def dictGet (data : JValue) (key : String) : PyResult JValue :=
  match data with
  | .jObj fields =>
    match lookupField fields key with
    | some v => .ok v
    | none => .pyError "KeyError"
  | _ => .pyError "TypeError"

/-- `x['packagetype'] == 'sdist'` once the field value is at hand:
equality with a string is `False` for non-string values, never an error. -/
def isSdistType : JValue → Bool
  | .jStr s => s == "sdist"
  | _ => false

/-- An entry that the comprehension's filter can test without raising:
a dict carrying a `packagetype` field. -/
def entryWf : JValue → Bool
  | .jObj fields => (lookupField fields "packagetype").isSome
  | _ => false

/-- The filter predicate of the comprehension, on well-formed entries. -/
def entryIsSdist : JValue → Bool
  | .jObj fields =>
    match lookupField fields "packagetype" with
    | some v => isSdistType v
    | none => false
  | _ => false

/-- The comprehension `[x for x in data['urls'] if x['packagetype'] == 'sdist']`:
evaluated left to right, raising `KeyError`/`TypeError` at the first entry
it cannot subscript. -/
def filterSdist : List JValue → PyResult (List JValue)
  | [] => .ok []
  | x :: rest =>
    match x with
    | .jObj fields =>
      match lookupField fields "packagetype" with
      | none => .pyError "KeyError"
      | some v =>
        match filterSdist rest with
        | .ok tail => .ok (if isSdistType v then x :: tail else tail)
        | .pyError e => .pyError e
        | .bootstrapError m a => .bootstrapError m a
    | _ => .pyError "TypeError"

/-- Oracle for the index query in `task_get_url`: either `urlopen`/`read`
raises `URLError`, or a body is received, which either fails to decode as
JSON or yields a `JValue`. -/
inductive IndexResp where
  | urlError : IndexResp
  | body : Option JValue → IndexResp

/-- `task_get_url` from `src/venvbs.py`: query the index for `package`,
keep the entries whose `packagetype` is `sdist`, return the `url` field of
the first one.  The `try` block catches only `URLError`; the
`BootstrapError` raised for an empty filter result, and any
`JSONDecodeError`/`KeyError`/`TypeError`, propagate out of it. -/
def task_get_url (package : String) (resp : IndexResp) : PyResult JValue :=
  match resp with
  | .urlError => .bootstrapError "Could not get url" []
  | .body none => .pyError "JSONDecodeError"
  | .body (some data) =>
    match dictGet data "urls" with
    | .pyError e => .pyError e
    | .bootstrapError m a => .bootstrapError m a
    | .ok (.jArr items) =>
      match filterSdist items with
      | .pyError e => .pyError e
      | .bootstrapError m a => .bootstrapError m a
      | .ok urls =>
        match urls with
        | [] => .bootstrapError "No URL found for: %s" [package]
        | first :: _ => dictGet first "url"
    | .ok _ => .pyError "TypeError"

/-- Oracle for the archive download in `task_fetch_virtualenv`: a
`URLError` with its `reason`, or the full body read into the buffer. -/
inductive DlResp where
  | urlError : String → DlResp
  | bytes : DlResp

/-- Oracle for `tarfile.open`/`extractall`: success, or one of the caught
exception classes (`tarfile.TarError`, `ValueError`, `OSError`) with its
first argument `e.args[0]`. -/
inductive ExtractOutcome where
  | extracted : ExtractOutcome
  | tarError : String → ExtractOutcome

/-- `task_fetch_virtualenv` from `src/venvbs.py`: download into a buffer,
then extract the buffer as a tar archive into `dir`.  Each phase has its
own `try` turning its failures into a `BootstrapError`. -/
def task_fetch_virtualenv (dl : DlResp) (ext : ExtractOutcome) : PyResult Unit :=
  match dl with
  | .urlError reason => .bootstrapError "Could not download virtualenv: %s" [reason]
  | .bytes =>
    match ext with
    | .extracted => .ok ()
    | .tarError detail => .bootstrapError "Could not untar virtualenv: %s" [detail]

/-- `os.path.join` for the relative components this script joins. -/
def joinPath (a b : String) : String := a ++ "/" ++ b

/-- The loop of `task_find_virtualenvpy`: first glob match whose
`virtualenv.py` child is a regular file. -/
def findLoop (isfile : String → Bool) : List String → Option String
  | [] => none
  | m :: rest =>
    let candidate := joinPath m "virtualenv.py"
    if isfile candidate then some candidate else findLoop isfile rest

/-- Character-level prefix test (fnmatch of `virtualenv-*` against a name
is exactly "the name begins with `virtualenv-`", since `*` matches any
suffix including the empty one). -/
def isPrefixChars : List Char → List Char → Bool
  | [], _ => true
  | _ :: _, [] => false
  | a :: as, b :: bs => a == b && isPrefixChars as bs

/-- The glob `dir/virtualenv-*`: the directory entries of `dir`, in listing
order, whose names begin with `virtualenv-`, joined onto `dir`. -/
def globMatches (listing : List String) (dir : String) : List String :=
  (listing.filter (fun n => isPrefixChars "virtualenv-".data n.data)).map (joinPath dir)

/-- `task_find_virtualenvpy` from `src/venvbs.py`: over the glob matches in
listing order, return the first `virtualenv.py` that is a regular file. -/
def task_find_virtualenvpy (listing : List String) (isfile : String → Bool)
    (dir : String) : PyResult String :=
  match findLoop isfile (globMatches listing dir) with
  | some candidate => .ok candidate
  | none => .bootstrapError "Could not find virtualenv.py" []

/-- `task_find_in_bin` from `src/venvbs.py`: `dir/bin/executable` when it
is a regular file (`os.path.isfile`) with execute permission
(`os.access(pth, os.X_OK)`). -/
def task_find_in_bin (isfile isExec : String → Bool) (dir executable : String) :
    PyResult String :=
  let pth := joinPath (joinPath dir "bin") executable
  if isfile pth && isExec pth then .ok pth
  else .bootstrapError "%s not found, or not executable." [executable]

/-- `task_create_venv` from `src/venvbs.py`.  `venv_args[-1]` is evaluated
in the first logging call, so an empty argument list raises `IndexError`
before `subprocess.call` runs.  The second component records the argument
vectors of the child processes spawned. -/
def task_create_venv (call : List String → Int) (python virtualenvpy : String)
    (venv_args : List String) : PyResult Unit × List (List String) :=
  match venv_args with
  | [] => (.pyError "IndexError", [])
  | _ :: _ =>
    let argv := python :: virtualenvpy :: venv_args
    let code := call argv
    if code = 0 then (.ok (), [argv])
    else (.bootstrapError "Could not create virtualenv." [], [argv])

/-- Oracle world for one run: `sys.executable`, the name `mkdtemp` picked
for the scratch directory, the index response, the download and extraction
outcomes, the scratch directory's listing after extraction, the filesystem
file test and the subprocess exit codes. -/
structure World where
  executable : String
  tmpName : String
  index : IndexResp
  dl : DlResp
  ext : ExtractOutcome
  listing : List String
  isfile : String → Bool
  call : List String → Int

/-- The `with TemporaryDirectory(...)` block: `__enter__` creates the
scratch directory, the body runs, and on every orderly exit — normal or
via a raised exception carried in the body's result — `__exit__` runs
`shutil.rmtree` on it.  The Bool component tracks whether the scratch
directory exists. -/
def withTemporaryDirectory {α : Type} (body : Bool → PyResult α × Bool)
    (_scratchExists : Bool) : PyResult α × Bool :=
  let (r, _) := body true
  (r, false)

/-- The body of `run`'s `with` block: the four stages in sequence, each
raised exception short-circuiting the rest unchanged. -/
def runBody (w : World) (python : String) (venv_args : List String) : PyResult Unit :=
  match task_get_url "virtualenv" w.index with
  | .bootstrapError m a => .bootstrapError m a
  | .pyError e => .pyError e
  | .ok _url =>
    match task_fetch_virtualenv w.dl w.ext with
    | .bootstrapError m a => .bootstrapError m a
    | .pyError e => .pyError e
    | .ok _ =>
      match task_find_virtualenvpy w.listing w.isfile w.tmpName with
      | .bootstrapError m a => .bootstrapError m a
      | .pyError e => .pyError e
      | .ok virtualenvpy => (task_create_venv w.call python virtualenvpy venv_args).1

/-- `run` from `src/venvbs.py`: the pipeline inside a scoped temporary
directory.  The Bool component is whether the scratch directory still
exists once `run` has completed on an orderly exit path. -/
def run (w : World) (python : String) (venv_args : List String) :
    PyResult Unit × Bool :=
  withTemporaryDirectory (fun s => (runBody w python venv_args, s)) false

/-- `main` from `src/venvbs.py`: returns `None` on success, and for a
caught `BootstrapError` returns `e.msg % e.args`; any other exception is
not caught and propagates out of `main`. -/
def main (w : World) (argv : List String) : PyResult (Option String) :=
  match run w w.executable argv with
  | (.ok _, _) => .ok none
  | (.bootstrapError m a, _) => .ok (some (render m a))
  | (.pyError e, _) => .pyError e

/-- `sys.exit(main(...))`: `sys.exit(None)` exits with status 0;
`sys.exit(<string>)` prints the string and exits with status 1. -/
def sysExitCode : Option String → Nat
  | none => 0
  | some _ => 1

/-- An exception that `main`'s `except BootstrapError` clause does not
catch, so it escapes the outermost handler. -/
def PyResult.isUncaught {α : Type} : PyResult α → Bool
  | .pyError _ => true
  | _ => false

/-- A mocked world whose index query raises `URLError`. -/
def resolveFailWorld : World :=
  { executable := "py", tmpName := "td", index := .urlError, dl := .bytes,
    ext := .extracted, listing := [], isfile := fun _ => false,
    call := fun _ => 0 }

/-- A mocked world in which every stage succeeds: the index lists one
sdist, the download and extraction succeed, the scratch directory then
holds `virtualenv-1/virtualenv.py`, and the child process exits 0. -/
def successWorld : World :=
  { executable := "py", tmpName := "td",
    index := .body (some (.jObj [("urls", .jArr
      [.jObj [("packagetype", .jStr "sdist"), ("url", .jStr "U")]])])),
    dl := .bytes, ext := .extracted, listing := ["virtualenv-1"],
    isfile := fun s => s == "td/virtualenv-1/virtualenv.py",
    call := fun _ => 0 }

/-- A mocked world whose index response body is not valid JSON. -/
def badJsonWorld : World :=
  { executable := "py", tmpName := "td", index := .body none, dl := .bytes,
    ext := .extracted, listing := [], isfile := fun _ => false,
    call := fun _ => 0 }

/- ## Supporting lemmas -/

theorem filterSdist_of_wf (items : List JValue) (h : items.all entryWf = true) :
    filterSdist items = .ok (items.filter entryIsSdist) := by
  induction items with
  | nil => rfl
  | cons x rest ih =>
    rw [List.all_cons, Bool.and_eq_true] at h
    obtain ⟨hx, hrest⟩ := h
    cases x with
    | jObj xf =>
      simp only [entryWf] at hx
      obtain ⟨v, hv⟩ := Option.isSome_iff_exists.mp hx
      rw [List.filter_cons]
      simp [filterSdist, hv, ih hrest, entryIsSdist]
    | jStr s => simp [entryWf] at hx
    | jArr l => simp [entryWf] at hx
    | jOther => simp [entryWf] at hx

theorem filterSdist_err_of_not_wf (items : List JValue)
    (h : items.all entryWf = false) : ∃ e, filterSdist items = .pyError e := by
  induction items with
  | nil => simp [List.all_nil] at h
  | cons x rest ih =>
    rw [List.all_cons, Bool.and_eq_false_iff] at h
    cases x with
    | jObj xf =>
      cases hl : lookupField xf "packagetype" with
      | none => exact ⟨"KeyError", by simp [filterSdist, hl]⟩
      | some v =>
        have hrest : rest.all entryWf = false := by
          rcases h with h | h
          · simp [entryWf, hl] at h
          · exact h
        obtain ⟨e, he⟩ := ih hrest
        exact ⟨e, by simp [filterSdist, hl, he]⟩
    | jStr s => exact ⟨"TypeError", rfl⟩
    | jArr l => exact ⟨"TypeError", rfl⟩
    | jOther => exact ⟨"TypeError", rfl⟩

theorem findLoop_eq_none (isfile : String → Bool) (ms : List String)
    (h : ms.all (fun m => !(isfile (joinPath m "virtualenv.py"))) = true) :
    findLoop isfile ms = none := by
  induction ms with
  | nil => rfl
  | cons m rest ih =>
    rw [List.all_cons, Bool.and_eq_true] at h
    obtain ⟨hm, hrest⟩ := h
    rw [Bool.not_eq_true'] at hm
    simp [findLoop, hm, ih hrest]

theorem findLoop_first (isfile : String → Bool) (pre : List String) (m : String)
    (post : List String)
    (hpre : pre.all (fun p => !(isfile (joinPath p "virtualenv.py"))) = true)
    (hm : isfile (joinPath m "virtualenv.py") = true) :
    findLoop isfile (pre ++ m :: post) = some (joinPath m "virtualenv.py") := by
  induction pre with
  | nil => simp [findLoop, hm]
  | cons p rest ih =>
    rw [List.all_cons, Bool.and_eq_true] at hpre
    obtain ⟨hp, hrest⟩ := hpre
    rw [Bool.not_eq_true'] at hp
    simp [findLoop, hp, ih hrest]

theorem render_no_url_found (p : String) :
    render "No URL found for: %s" [p] = "No URL found for: " ++ p := by
  have h : render "No URL found for: %s" [p]
      = ⟨"No URL found for: ".data ++ (p.data ++ [])⟩ := rfl
  rw [h]
  apply String.ext
  simp [String.data_append]

theorem render_could_not_download (p : String) :
    render "Could not download virtualenv: %s" [p]
      = "Could not download virtualenv: " ++ p := by
  have h : render "Could not download virtualenv: %s" [p]
      = ⟨"Could not download virtualenv: ".data ++ (p.data ++ [])⟩ := rfl
  rw [h]
  apply String.ext
  simp [String.data_append]

theorem render_could_not_untar (p : String) :
    render "Could not untar virtualenv: %s" [p]
      = "Could not untar virtualenv: " ++ p := by
  have h : render "Could not untar virtualenv: %s" [p]
      = ⟨"Could not untar virtualenv: ".data ++ (p.data ++ [])⟩ := rfl
  rw [h]
  apply String.ext
  simp [String.data_append]

theorem render_not_found_in_bin (p : String) :
    render "%s not found, or not executable." [p]
      = p ++ " not found, or not executable." := rfl

/- ## Claims -/

/-- C1: for every oracle world, interpreter and argument list — hence
whether the run succeeds or any stage raises at any point — the scratch
directory created at the start of `run` does not exist once `run` has
completed on an orderly exit path. -/
theorem run_cleans_up_scratch (w : World) (python : String)
    (venv_args : List String) : (run w python venv_args).2 = false := rfl

/-- C2: when the decoded index response is an object whose `urls` field is
a list of well-formed entries containing at least one sdist entry,
`task_get_url` returns exactly the `url` field of the first sdist entry in
the response's listing order. -/
theorem task_get_url_first_sdist (package : String)
    (fields : List (String × JValue)) (items : List JValue) (first : JValue)
    (rest : List JValue) (u : JValue)
    (hurls : lookupField fields "urls" = some (.jArr items))
    (hwf : items.all entryWf = true)
    (hfilter : items.filter entryIsSdist = first :: rest)
    (hurl : dictGet first "url" = .ok u) :
    task_get_url package (.body (some (.jObj fields))) = .ok u := by
  simp [task_get_url, dictGet, hurls, filterSdist_of_wf items hwf, hfilter]
  exact hurl

/-- C3 counterexample: with zero sdist artifacts for package
"virtualenv", the rendered message is "No URL found for: virtualenv",
not "no URL found for virtualenv" as the claim quotes it; the
network-failure message is "Could not get url", capitalised unlike the
claim's "could not get url". -/
theorem task_get_url_message_counterexample :
    task_get_url "virtualenv" (.body (some (.jObj [("urls", .jArr [])])))
      = .bootstrapError "No URL found for: %s" ["virtualenv"]
    ∧ render "No URL found for: %s" ["virtualenv"] ≠ "no URL found for virtualenv"
    ∧ task_get_url "virtualenv" .urlError = .bootstrapError "Could not get url" []
    ∧ render "Could not get url" [] ≠ "could not get url" :=
  ⟨rfl, by decide, rfl, by decide⟩

/-- C3 amended: with zero sdist artifacts in a well-formed response,
`task_get_url` never returns a URL and raises a `BootstrapError` rendered
"No URL found for: <package>"; on a `URLError` from the index query it
raises a `BootstrapError` rendered "Could not get url". -/
theorem task_get_url_failure_messages (package : String)
    (fields : List (String × JValue)) (items : List JValue)
    (hurls : lookupField fields "urls" = some (.jArr items))
    (hwf : items.all entryWf = true)
    (hnone : items.filter entryIsSdist = []) :
    (task_get_url package (.body (some (.jObj fields)))
        = .bootstrapError "No URL found for: %s" [package]
      ∧ render "No URL found for: %s" [package] = "No URL found for: " ++ package)
    ∧ (task_get_url package .urlError = .bootstrapError "Could not get url" []
      ∧ render "Could not get url" [] = "Could not get url") := by
  refine ⟨⟨?_, render_no_url_found package⟩, rfl, rfl⟩
  simp [task_get_url, dictGet, hurls, filterSdist_of_wf items hwf, hnone]

/-- C3 witness: a response whose only artifact is a wheel, for package
"virtualenv". -/
theorem task_get_url_failure_messages_witness :
    task_get_url "virtualenv"
      (.body (some (.jObj [("urls", .jArr
        [.jObj [("packagetype", .jStr "bdist_wheel"), ("url", .jStr "W")]])])))
      = .bootstrapError "No URL found for: %s" ["virtualenv"]
    ∧ render "No URL found for: %s" ["virtualenv"] = "No URL found for: virtualenv" :=
  (task_get_url_failure_messages "virtualenv"
    [("urls", .jArr [.jObj [("packagetype", .jStr "bdist_wheel"), ("url", .jStr "W")]])]
    [.jObj [("packagetype", .jStr "bdist_wheel"), ("url", .jStr "W")]]
    rfl rfl rfl).1

/-- C4 counterexample: the download-failure message is
"Could not download virtualenv: <reason>", not "could not download:
<reason>" as the claim quotes it, and the extraction-failure message is
"Could not untar virtualenv: <detail>", not "could not untar: <detail>". -/
theorem task_fetch_virtualenv_message_counterexample :
    task_fetch_virtualenv (.urlError "timed out") .extracted
      = .bootstrapError "Could not download virtualenv: %s" ["timed out"]
    ∧ render "Could not download virtualenv: %s" ["timed out"]
        ≠ "could not download: timed out"
    ∧ task_fetch_virtualenv .bytes (.tarError "truncated header")
        = .bootstrapError "Could not untar virtualenv: %s" ["truncated header"]
    ∧ render "Could not untar virtualenv: %s" ["truncated header"]
        ≠ "could not untar: truncated header" :=
  ⟨rfl, by decide, rfl, by decide⟩

/-- C4 amended: a `URLError` with reason `<reason>` during the download
raises a `BootstrapError` rendered "Could not download virtualenv:
<reason>"; a `TarError`/`ValueError`/`OSError` with detail `<detail>`
during extraction raises a `BootstrapError` rendered "Could not untar
virtualenv: <detail>"; no other error kind is produced by this stage, and
when both phases succeed no error is raised. -/
theorem task_fetch_virtualenv_failures (reason detail : String)
    (ext : ExtractOutcome) :
    (task_fetch_virtualenv (.urlError reason) ext
        = .bootstrapError "Could not download virtualenv: %s" [reason]
      ∧ render "Could not download virtualenv: %s" [reason]
          = "Could not download virtualenv: " ++ reason)
    ∧ (task_fetch_virtualenv .bytes (.tarError detail)
        = .bootstrapError "Could not untar virtualenv: %s" [detail]
      ∧ render "Could not untar virtualenv: %s" [detail]
          = "Could not untar virtualenv: " ++ detail)
    ∧ task_fetch_virtualenv .bytes .extracted = .ok () :=
  ⟨⟨rfl, render_could_not_download reason⟩,
   ⟨rfl, render_could_not_untar detail⟩, rfl⟩

/-- C2 witness: a mocked response listing a wheel first and two sdists;
the first sdist's URL is returned. -/
theorem task_get_url_first_sdist_witness :
    task_get_url "virtualenv"
      (.body (some (.jObj [("urls", .jArr
        [.jObj [("packagetype", .jStr "bdist_wheel"), ("url", .jStr "W")],
         .jObj [("packagetype", .jStr "sdist"), ("url", .jStr "S1")],
         .jObj [("packagetype", .jStr "sdist"), ("url", .jStr "S2")]])])))
      = .ok (.jStr "S1") :=
  task_get_url_first_sdist "virtualenv" _ _ _ _ _ rfl rfl rfl rfl

/-- C5 counterexample: with no matching child at all, the failure message
is "Could not find virtualenv.py", not "entry point not found" as the
claim quotes it. -/
theorem task_find_virtualenvpy_message_counterexample :
    task_find_virtualenvpy [] (fun _ => false) "td"
      = .bootstrapError "Could not find virtualenv.py" []
    ∧ render "Could not find virtualenv.py" [] ≠ "entry point not found" :=
  ⟨rfl, by decide⟩

/-- C5 amended: when no immediate child of `dir` matching `virtualenv-*`
contains `virtualenv.py` as a regular file, `task_find_virtualenvpy`
does not return a path and raises a `BootstrapError` rendered "Could not
find virtualenv.py"; when some matching child contains it, the first such
candidate's `virtualenv.py` path, in listing order, is returned. -/
theorem task_find_virtualenvpy_spec (listing : List String)
    (isfile : String → Bool) (dir : String) :
    ((globMatches listing dir).all
        (fun m => !(isfile (joinPath m "virtualenv.py"))) = true →
      task_find_virtualenvpy listing isfile dir
        = .bootstrapError "Could not find virtualenv.py" []
      ∧ render "Could not find virtualenv.py" [] = "Could not find virtualenv.py")
    ∧ (∀ pre m post, globMatches listing dir = pre ++ m :: post →
        pre.all (fun p => !(isfile (joinPath p "virtualenv.py"))) = true →
        isfile (joinPath m "virtualenv.py") = true →
        task_find_virtualenvpy listing isfile dir
          = .ok (joinPath m "virtualenv.py")) := by
  constructor
  · intro h
    exact ⟨by simp [task_find_virtualenvpy, findLoop_eq_none isfile _ h], rfl⟩
  · intro pre m post hsplit hpre hm
    simp [task_find_virtualenvpy, hsplit, findLoop_first isfile pre m post hpre hm]

/-- C5 witness: one listing with no match, and one where the first glob
match lacks the entry point but the second has it. -/
theorem task_find_virtualenvpy_spec_witness :
    task_find_virtualenvpy ["README", "virtualenv-16.0.0"] (fun _ => false) "td"
      = .bootstrapError "Could not find virtualenv.py" []
    ∧ task_find_virtualenvpy ["virtualenv-a", "virtualenv-b"]
        (fun s => s == "td/virtualenv-b/virtualenv.py") "td"
      = .ok "td/virtualenv-b/virtualenv.py" :=
  ⟨((task_find_virtualenvpy_spec ["README", "virtualenv-16.0.0"]
      (fun _ => false) "td").1 (by decide)).1,
   (task_find_virtualenvpy_spec ["virtualenv-a", "virtualenv-b"]
      (fun s => s == "td/virtualenv-b/virtualenv.py") "td").2
     ["td/virtualenv-a"] "td/virtualenv-b" [] rfl (by decide) (by decide)⟩

/-- C6 counterexample: the failure message carries a trailing period,
"pip not found, or not executable.", unlike the claim's quoted
"pip not found, or not executable". -/
theorem task_find_in_bin_message_counterexample :
    task_find_in_bin (fun _ => false) (fun _ => false) "d" "pip"
      = .bootstrapError "%s not found, or not executable." ["pip"]
    ∧ render "%s not found, or not executable." ["pip"]
        ≠ "pip not found, or not executable" :=
  ⟨rfl, by decide⟩

/-- C6 amended: `task_find_in_bin` returns `dir/bin/name` exactly when
that path is a regular file (`os.path.isfile`, which entails existence)
with execute permission for the current user; otherwise it raises a
`BootstrapError` rendered "<name> not found, or not executable." with a
trailing period. -/
theorem task_find_in_bin_spec (isfile isExec : String → Bool)
    (dir executable : String) :
    (task_find_in_bin isfile isExec dir executable
        = .ok (joinPath (joinPath dir "bin") executable)
      ↔ isfile (joinPath (joinPath dir "bin") executable) = true
        ∧ isExec (joinPath (joinPath dir "bin") executable) = true)
    ∧ ((isfile (joinPath (joinPath dir "bin") executable)
          && isExec (joinPath (joinPath dir "bin") executable)) = false →
        task_find_in_bin isfile isExec dir executable
          = .bootstrapError "%s not found, or not executable." [executable]
        ∧ render "%s not found, or not executable." [executable]
          = executable ++ " not found, or not executable.") := by
  constructor
  · constructor
    · intro h
      by_contra hc
      rw [Classical.not_and_iff_or_not_not] at hc
      have hfalse : (isfile (joinPath (joinPath dir "bin") executable)
          && isExec (joinPath (joinPath dir "bin") executable)) = false := by
        rcases hc with hc | hc <;> simp [Bool.not_eq_true] at hc <;> simp [hc]
      simp [task_find_in_bin, hfalse] at h
    · intro ⟨h1, h2⟩
      simp [task_find_in_bin, h1, h2]
  · intro h
    exact ⟨by simp [task_find_in_bin, h], render_not_found_in_bin executable⟩

/-- C6 witness: a filesystem where `d/bin/pip` is an executable regular
file, and one where it is a regular file without execute permission. -/
theorem task_find_in_bin_spec_witness :
    task_find_in_bin (fun s => s == "d/bin/pip") (fun s => s == "d/bin/pip")
        "d" "pip" = .ok "d/bin/pip"
    ∧ task_find_in_bin (fun s => s == "d/bin/pip") (fun _ => false) "d" "pip"
      = .bootstrapError "%s not found, or not executable." ["pip"] :=
  ⟨((task_find_in_bin_spec (fun s => s == "d/bin/pip")
      (fun s => s == "d/bin/pip") "d" "pip").1).mpr ⟨by decide, by decide⟩,
   ((task_find_in_bin_spec (fun s => s == "d/bin/pip")
      (fun _ => false) "d" "pip").2 (by decide)).1⟩

/-- C7 counterexample: on a non-zero exit the message is "Could not
create virtualenv.", not "could not create environment" as the claim
quotes it; and for the empty argument list the call does not reach the
child process at all — it raises `IndexError` — so "succeeds iff the
child exits 0" fails there even under an always-0 exit status. -/
theorem task_create_venv_message_counterexample :
    task_create_venv (fun _ => 1) "py" "vpy" ["myenv"]
      = (.bootstrapError "Could not create virtualenv." [], [["py", "vpy", "myenv"]])
    ∧ render "Could not create virtualenv." [] ≠ "could not create environment"
    ∧ task_create_venv (fun _ => 0) "py" "vpy" [] = (.pyError "IndexError", []) :=
  ⟨rfl, by decide, rfl⟩

/-- C7 amended: for every nonempty argument list, `task_create_venv`
spawns exactly one child with argv `[python, virtualenvpy] ++ venv_args`
and succeeds exactly when its exit status is 0; any non-zero status
raises a `BootstrapError` rendered "Could not create virtualenv.", the
exit status being the sole failure signal. -/
theorem task_create_venv_spec (call : List String → Int)
    (python virtualenvpy a : String) (as : List String) :
    (call (python :: virtualenvpy :: a :: as) = 0 →
      task_create_venv call python virtualenvpy (a :: as)
        = (.ok (), [python :: virtualenvpy :: a :: as]))
    ∧ (call (python :: virtualenvpy :: a :: as) ≠ 0 →
      task_create_venv call python virtualenvpy (a :: as)
        = (.bootstrapError "Could not create virtualenv." [],
           [python :: virtualenvpy :: a :: as])
      ∧ render "Could not create virtualenv." [] = "Could not create virtualenv.") := by
  constructor
  · intro h
    simp [task_create_venv, h]
  · intro h
    exact ⟨by simp [task_create_venv, h], rfl⟩

/-- C7 witness: exit status 0 succeeds; exit status 1 raises the error. -/
theorem task_create_venv_spec_witness :
    task_create_venv (fun _ => 0) "py" "vpy" ["myenv"]
      = (.ok (), [["py", "vpy", "myenv"]])
    ∧ task_create_venv (fun _ => 1) "py" "vpy" ["myenv"]
      = (.bootstrapError "Could not create virtualenv." [],
         [["py", "vpy", "myenv"]]) :=
  ⟨(task_create_venv_spec (fun _ => 0) "py" "vpy" "myenv" []).1 rfl,
   ((task_create_venv_spec (fun _ => 1) "py" "vpy" "myenv" []).2 (by decide)).1⟩

/-- C8: on a successful run `main` returns `None` and the process exit
code is 0; when any stage raises a `BootstrapError`, `main` returns that
error's message template rendered with its positional arguments — no
intermediate stage having wrapped or altered it — and the process exit
value signals failure. -/
theorem main_reports_bootstrap_failures (w : World) (argv : List String) :
    ((run w w.executable argv).1 = .ok () →
      main w argv = .ok none ∧ sysExitCode none = 0)
    ∧ (∀ m a, (run w w.executable argv).1 = .bootstrapError m a →
      main w argv = .ok (some (render m a))
      ∧ sysExitCode (some (render m a)) = 1) := by
  have hsnd : run w w.executable argv = (runBody w w.executable argv, false) := rfl
  constructor
  · intro h
    have hb : runBody w w.executable argv = .ok () := h
    exact ⟨by simp [main, hsnd, hb], rfl⟩
  · intro m a h
    have hb : runBody w w.executable argv = .bootstrapError m a := h
    exact ⟨by simp [main, hsnd, hb], rfl⟩

/-- C8 witness: a run failing at the resolve stage reports the rendered
message "Could not get url"; a fully successful run returns `None`. -/
theorem main_reports_bootstrap_failures_witness :
    main resolveFailWorld ["env"] = .ok (some (render "Could not get url" []))
    ∧ main successWorld ["env"] = .ok none :=
  ⟨((main_reports_bootstrap_failures resolveFailWorld ["env"]).2
      "Could not get url" [] rfl).1,
   ((main_reports_bootstrap_failures successWorld ["env"]).1 rfl).1⟩

/-- C9: with the empty passthrough-argument list, `task_create_venv`
raises `IndexError` (from `venv_args[-1]`) having spawned no child
process; the failure is not a `BootstrapError`, so in a run whose prior
stages all succeed it passes through `main`'s handler uncaught. -/
theorem task_create_venv_empty_args (w : World) (u : JValue) (vpy : String)
    (h1 : task_get_url "virtualenv" w.index = .ok u)
    (h2 : task_fetch_virtualenv w.dl w.ext = .ok ())
    (h3 : task_find_virtualenvpy w.listing w.isfile w.tmpName = .ok vpy) :
    task_create_venv w.call w.executable vpy [] = (.pyError "IndexError", [])
    ∧ (run w w.executable []).1 = .pyError "IndexError"
    ∧ main w [] = .pyError "IndexError" := by
  have hb : runBody w w.executable [] = .pyError "IndexError" := by
    simp [runBody, h1, h2, h3, task_create_venv]
  refine ⟨rfl, hb, ?_⟩
  simp [main, show run w w.executable [] = (runBody w w.executable [], false)
    from rfl, hb]

/-- C9 witness: all prior stages succeed and the argument list is empty;
the `IndexError` escapes `main`. -/
theorem task_create_venv_empty_args_witness :
    main successWorld [] = .pyError "IndexError" :=
  (task_create_venv_empty_args successWorld (.jStr "U")
    "td/virtualenv-1/virtualenv.py" rfl rfl rfl).2.2

/-- C10: an index response body that is not valid JSON, or whose decoded
value lacks the `urls` field, or whose entries lack `packagetype`, or
whose first sdist entry lacks `url`, makes `task_get_url` raise an
exception that is not a `BootstrapError`; such exceptions escape `main`'s
handler instead of being reported as a rendered message. -/
theorem task_get_url_malformed_escapes (package : String) :
    (task_get_url package (.body none)).isUncaught = true
    ∧ (∀ fields, lookupField fields "urls" = none →
        (task_get_url package (.body (some (.jObj fields)))).isUncaught = true)
    ∧ (∀ fields items, lookupField fields "urls" = some (.jArr items) →
        items.all entryWf = false →
        (task_get_url package (.body (some (.jObj fields)))).isUncaught = true)
    ∧ (∀ fields items ff rest, lookupField fields "urls" = some (.jArr items) →
        items.all entryWf = true →
        items.filter entryIsSdist = .jObj ff :: rest →
        lookupField ff "url" = none →
        (task_get_url package (.body (some (.jObj fields)))).isUncaught = true)
    ∧ (∀ w argv e, (run w w.executable argv).1 = .pyError e →
        main w argv = .pyError e) := by
  refine ⟨rfl, ?_, ?_, ?_, ?_⟩
  · intro fields h
    simp [task_get_url, dictGet, h, PyResult.isUncaught]
  · intro fields items h1 h2
    obtain ⟨e, he⟩ := filterSdist_err_of_not_wf items h2
    simp [task_get_url, dictGet, h1, he, PyResult.isUncaught]
  · intro fields items ff rest h1 h2 h3 h4
    simp [task_get_url, dictGet, h1, filterSdist_of_wf items h2, h3, h4,
      PyResult.isUncaught]
  · intro w argv e h
    have hb : runBody w w.executable argv = .pyError e := h
    simp [main, show run w w.executable argv = (runBody w w.executable argv, false)
      from rfl, hb]

/-- C10 witness: a body lacking `urls`, an entry lacking `packagetype`,
an sdist entry lacking `url`, and a run on an invalid-JSON body whose
`JSONDecodeError` escapes `main`. -/
theorem task_get_url_malformed_escapes_witness :
    (task_get_url "virtualenv" (.body (some (.jObj [])))).isUncaught = true
    ∧ (task_get_url "virtualenv"
        (.body (some (.jObj [("urls", .jArr [.jOther])])))).isUncaught = true
    ∧ (task_get_url "virtualenv"
        (.body (some (.jObj [("urls", .jArr
          [.jObj [("packagetype", .jStr "sdist")]])])))).isUncaught = true
    ∧ main badJsonWorld [] = .pyError "JSONDecodeError" :=
  ⟨(task_get_url_malformed_escapes "virtualenv").2.1 [] rfl,
   (task_get_url_malformed_escapes "virtualenv").2.2.1
     [("urls", .jArr [.jOther])] [.jOther] rfl rfl,
   (task_get_url_malformed_escapes "virtualenv").2.2.2.1
     [("urls", .jArr [.jObj [("packagetype", .jStr "sdist")]])]
     [.jObj [("packagetype", .jStr "sdist")]]
     [("packagetype", .jStr "sdist")] [] rfl rfl rfl rfl,
   (task_get_url_malformed_escapes "virtualenv").2.2.2.2 badJsonWorld []
     "JSONDecodeError" rfl⟩

end Venvbs
